import Mathlib

/-!
Verification of the spanza WireGuard relay core: a shallow embedding of the
header parser (`packet.Parse`), the peer registry (`relay.Registry`), the
relay processor (`relay.Processor.ProcessPacket`), the UDP listener loop body
(`server`) and the DERP gateway (`gateway`), together with theorems settling
the specification's claims about them.

A Go `[]byte` is embedded as `List Byte` with `Byte := Fin 256`; Go pointers
that only stand for optional values (`*uint32`, `*Endpoint` results) become
`Option`; the mutable registry becomes explicit state passing; Go's
`(T, error)` returns become `Except String T` or `Option String` (where
`none` is the `nil` error).
-/

set_option autoImplicit false
set_option maxRecDepth 8192

namespace Spanza

/-- A single octet of a Go `[]byte`. -/
abbrev Byte := Fin 256

namespace packet

/-- `MessageInitiationType = 1` (packet/types.go). -/
def MessageInitiationType : Nat := 1

/-- `MessageResponseType = 2` (packet/types.go). -/
def MessageResponseType : Nat := 2

/-- `MessageCookieReplyType = 3` (packet/types.go). -/
def MessageCookieReplyType : Nat := 3

/-- `MessageTransportType = 4` (packet/types.go). -/
def MessageTransportType : Nat := 4

/-- `MessageInitiationSize = 148` (packet/types.go). -/
def MessageInitiationSize : Nat := 148

/-- `MessageResponseSize = 92` (packet/types.go). -/
def MessageResponseSize : Nat := 92

/-- `MessageCookieReplySize = 64` (packet/types.go). -/
def MessageCookieReplySize : Nat := 64

/-- `MessageTransportHeaderSize = 16` (packet/types.go). -/
def MessageTransportHeaderSize : Nat := 16

/-- `MessageTransportOffsetReceiver = 4` (packet/types.go). -/
def MessageTransportOffsetReceiver : Nat := 4

/-- The byte of `data` at index `i` (`data[i]`), as a natural number.
Every access in the source is guarded by a length check, so the default
value of `getD` is never reached in guarded positions. -/
def byteAt (data : List Byte) (i : Nat) : Nat :=
  (data.getD i 0).val

/-- `binary.LittleEndian.Uint32(data[i:i+4])`: the little-endian 32-bit
value held at bytes `i..i+3`.  With bytes below 256 the sum is below
`2^32`, so no wraparound is elided. -/
def le32 (data : List Byte) (i : Nat) : Nat :=
  byteAt data i + 2 ^ 8 * byteAt data (i + 1) +
    2 ^ 16 * byteAt data (i + 2) + 2 ^ 24 * byteAt data (i + 3)

/-- `packet.Message`: a parsed WireGuard header.  `type` is the value of the
Go `MessageType` byte; `sender`/`receiver` embed the `*uint32` fields as
`Option Nat`; `data` is the `Data []byte` reference to the raw bytes. -/
structure Message where
  type : Nat
  sender : Option Nat
  receiver : Option Nat
  data : List Byte
deriving DecidableEq, Repr

/-- `parseInitiation` (packet/types.go): exact size 148, sender at 4..7. -/
def parseInitiation (msg : Message) (data : List Byte) : Except String Message :=
  if data.length ≠ MessageInitiationSize then
    Except.error "invalid initiation message size"
  else
    Except.ok { msg with sender := some (le32 data 4) }

/-- `parseResponse` (packet/types.go): exact size 92, sender at 4..7,
receiver at 8..11. -/
def parseResponse (msg : Message) (data : List Byte) : Except String Message :=
  if data.length ≠ MessageResponseSize then
    Except.error "invalid response message size"
  else
    Except.ok { msg with sender := some (le32 data 4), receiver := some (le32 data 8) }

/-- `parseCookieReply` (packet/types.go): exact size 64, receiver at 4..7. -/
def parseCookieReply (msg : Message) (data : List Byte) : Except String Message :=
  if data.length ≠ MessageCookieReplySize then
    Except.error "invalid cookie reply message size"
  else
    Except.ok { msg with receiver := some (le32 data 4) }

/-- `parseTransport` (packet/types.go): minimum size 16, receiver at
`MessageTransportOffsetReceiver..+3`. -/
def parseTransport (msg : Message) (data : List Byte) : Except String Message :=
  if data.length < MessageTransportHeaderSize then
    Except.error "invalid transport message size"
  else
    Except.ok { msg with receiver := some (le32 data MessageTransportOffsetReceiver) }

/-- `packet.Parse` (packet/types.go): reject frames shorter than 4 bytes,
dispatch on the type byte `data[0]`, reject unknown types. -/
def Parse (data : List Byte) : Except String Message :=
  if data.length < 4 then
    Except.error "packet too small"
  else
    let msgType := byteAt data 0
    let msg : Message := { type := msgType, sender := none, receiver := none, data := data }
    if msgType = MessageInitiationType then parseInitiation msg data
    else if msgType = MessageResponseType then parseResponse msg data
    else if msgType = MessageCookieReplyType then parseCookieReply msg data
    else if msgType = MessageTransportType then parseTransport msg data
    else Except.error "unknown message type"

end packet

namespace relay

/-- `relay.EndpointType` (relay/types.go); only the two constructed
variants `EndpointUDP` and `EndpointStream` occur. -/
inductive EndpointType where
| udp
| stream
deriving DecidableEq, Repr

/-- `relay.Endpoint` (relay/types.go).  A `*net.UDPAddr` is embedded by its
address string (`String()` form), with `none` for a nil pointer; the
`StreamConn io.ReadWriteCloser` handle is omitted because no verified
operation reads it (equality compares `StreamRemote`); `LastSeen` is an
abstract timestamp. -/
structure Endpoint where
  type : EndpointType
  udpAddr : Option String
  streamRemote : String
  lastSeen : Nat
deriving DecidableEq, Repr

/-- `endpointsEqual` (relay registry source): same type, then address-string
equality for UDP (both non-nil) or `StreamRemote` equality for streams. -/
def endpointsEqual (a b : Endpoint) : Bool :=
  if a.type = b.type then
    match a.type with
    | EndpointType.udp =>
        a.udpAddr.isSome && b.udpAddr.isSome && decide (a.udpAddr = b.udpAddr)
    | EndpointType.stream => decide (a.streamRemote = b.streamRemote)
  else false

/-- `relay.Registry`: the Go `map[uint32]*Endpoint`, embedded as an
association list with at most one entry per index (map iteration order is
unspecified in Go, so all enumeration claims are stated up to membership). -/
abbrev Registry := List (Nat × Endpoint)

/-- `Registry.Register` (map assignment `r.peers[index] = endpoint`):
unconditional upsert. -/
def Register (index : Nat) (endpoint : Endpoint) (r : Registry) : Registry :=
  (index, endpoint) :: r.filter (fun p => decide (p.1 ≠ index))

/-- `Registry.Lookup` (map read `r.peers[index]`): the bound endpoint, or
`none` when the index is absent (Go returns the nil pointer). -/
def Lookup (index : Nat) (r : Registry) : Option Endpoint :=
  (r.find? (fun p => decide (p.1 = index))).map Prod.snd

/-- `Registry.Remove` (`delete(r.peers, index)`). -/
def Remove (index : Nat) (r : Registry) : Registry :=
  r.filter (fun p => decide (p.1 ≠ index))

/-- `Registry.Count` (`len(r.peers)`); valid because `Register` keeps keys
unique. -/
def Count (r : Registry) : Nat :=
  r.length

/-- `Registry.GetAllExcept`: every registered endpoint not `endpointsEqual`
to `source`. -/
def GetAllExcept (source : Endpoint) (r : Registry) : List Endpoint :=
  (r.filter (fun p => !endpointsEqual p.2 source)).map Prod.snd

/-- The learning step of `Processor.ProcessPacket`: register the sender's
endpoint when the packet carries a sender index (`if msg.Sender != nil`). -/
def learnSender (msg : packet.Message) (source : Endpoint) (reg : Registry) : Registry :=
  match msg.sender with
  | some s => Register s source reg
  | none => reg

/-- `Processor.ProcessPacket` (relay processor source): parse, learn the
sender, then either forward to the receiver's endpoint (or nowhere when it
is unknown) or broadcast to all known endpoints except the source.  The
mutable registry held by the processor is passed and returned explicitly. -/
def ProcessPacket (data : List Byte) (source : Endpoint) (reg : Registry) :
    Except String (List Endpoint × Registry) :=
  match packet.Parse data with
  | Except.error e => Except.error ("failed to parse packet: " ++ e)
  | Except.ok msg =>
    let reg1 := learnSender msg source reg
    match msg.receiver with
    | some rcv =>
      match Lookup rcv reg1 with
      | some dest => Except.ok ([dest], reg1)
      | none => Except.ok ([], reg1)
    | none => Except.ok (GetAllExcept source reg1, reg1)

end relay

namespace server

/-- What one iteration of `UDPListener.Run`'s loop does with its read:
either dispatch a copied packet to a `handlePacket` goroutine, or return
from `Run` with an error value (`none` embeds a `nil` Go error). -/
inductive ListenerOutcome where
| dispatch (pkt : List Byte) (addr : String)
| exitErr (err : Option String)
deriving DecidableEq, Repr

/-- The result of one `conn.ReadFromUDP(buf)` call, before it is written
into the reused buffer: the arriving datagram and its source address, or a
read error. -/
inductive ReadResult where
| ok (datagram : List Byte) (addr : String)
| err (e : String)
deriving DecidableEq, Repr

/-- The error `ctx.Err()` yields once the context's `Done` channel has
fired by cancellation: `context.Canceled`, a non-nil error. -/
def ctxErrCanceled : String := "context canceled"

/-- `make([]byte, 2048)` — the size of `UDPListener.Run`'s reused read
buffer. -/
def udpReadBufferSize : Nat := 2048

/-- The kernel/Go-runtime semantics of `ReadFromUDP(buf)` receiving a UDP
datagram: the first `min(|datagram|, |buf|)` bytes are written at the start
of `buf` (excess datagram bytes are discarded — UDP reads truncate), the
rest of `buf` keeps its previous contents, and `n` is the byte count. -/
def readIntoBuffer (buf : List Byte) (datagram : List Byte) : List Byte × Nat :=
  let n := min datagram.length buf.length
  (datagram.take n ++ buf.drop n, n)

/-- The body of `UDPListener.Run`'s `for` loop, given the cancellation
state, the reused buffer and the outcome of the read.  On success it makes
the fresh copy `packet := buf[:n]` and dispatches it; on a read error it
returns `ctx.Err()` when the context is done, else the wrapped read error.
Returns the buffer as left for the next iteration alongside the outcome. -/
def runLoopBody (ctxDone : Bool) (buf : List Byte) (r : ReadResult) :
    List Byte × ListenerOutcome :=
  match r with
  | ReadResult.err e =>
    if ctxDone then
      (buf, ListenerOutcome.exitErr (some ctxErrCanceled))
    else
      (buf, ListenerOutcome.exitErr (some ("failed to read UDP packet: " ++ e)))
  | ReadResult.ok datagram addr =>
    let buf1 := (readIntoBuffer buf datagram).1
    let n := (readIntoBuffer buf datagram).2
    (buf1, ListenerOutcome.dispatch (buf1.take n) addr)

end server

namespace gateway

/-- The messages `derpClient.Recv()` can yield, as seen by the gateway's
DERP→UDP goroutine: only `derp.ReceivedPacket` (source public key plus
payload) is handled; every other variant (keepalive, server info, peer
gone, ping/pong, health) falls through the `switch` untouched. -/
inductive DerpMessage where
| receivedPacket (source : String) (data : List Byte)
| other
deriving DecidableEq, Repr

/-- The effect one received DERP message has in the DERP→UDP goroutine. -/
inductive GatewayAction where
| writeTo (data : List Byte) (addr : String)
| noAction
deriving DecidableEq, Repr

/-- The `switch m := msg.(type)` of the gateway's DERP→UDP goroutine
(gateway/gateway.go): a `ReceivedPacket` has its payload written to the
resolved WireGuard address `wgAddr` via `udpConn.WriteTo`; nothing else is
done, and no field of the message other than `Data` is consulted. -/
def handleDerpMessage (wgAddr : String) (msg : DerpMessage) : GatewayAction :=
  match msg with
  | DerpMessage.receivedPacket _ data => GatewayAction.writeTo data wgAddr
  | DerpMessage.other => GatewayAction.noAction

/-- The concurrency-relevant state of one `gateway.Run` invocation: the
cancellation flag of `ctx`, whether the two connections have been closed,
and whether the main body and each of the three spawned goroutines
(shutdown watcher, UDP→DERP, DERP→UDP) have returned. -/
structure GwState where
  cancelled : Bool
  udpClosed : Bool
  derpClosed : Bool
  mainReturned : Bool
  watcherReturned : Bool
  udpToDerpReturned : Bool
  derpToUdpReturned : Bool
deriving DecidableEq, Repr

/-- The state right after `gateway.Run` has spawned its three goroutines
and blocked on `<-ctx.Done()`. -/
def gwInit : GwState :=
  { cancelled := false, udpClosed := false, derpClosed := false,
    mainReturned := false, watcherReturned := false,
    udpToDerpReturned := false, derpToUdpReturned := false }

/-- One interleaving step of `gateway.Run` (gateway/gateway.go).
`cancel` is the environment cancelling `ctx`.  `mainReturn` is the main
body waking from `<-ctx.Done()` and returning (running the deferred
`derpClient.Close()`).  `watcherRun` is the shutdown-watcher goroutine
waking from `<-ctx.Done()`, closing `udpConn` and `derpClient`, and
returning.  The UDP→DERP goroutine returns when its `ReadFrom` fails
(socket closed) or its `select` sees `ctx.Done()`; the DERP→UDP goroutine
returns when its `select` sees `ctx.Done()` or `Recv` fails while
`ctx.Err() != nil`.  No step joins the goroutines from the main body:
`Run` has no `sync.WaitGroup` or channel join. -/
inductive GwStep : GwState → GwState → Prop where
| cancel (s : GwState) (h : s.cancelled = false) :
    GwStep s { s with cancelled := true }
| mainReturn (s : GwState) (h : s.cancelled = true) (h2 : s.mainReturned = false) :
    GwStep s { s with mainReturned := true, derpClosed := true }
| watcherRun (s : GwState) (h : s.cancelled = true) (h2 : s.watcherReturned = false) :
    GwStep s { s with udpClosed := true, derpClosed := true, watcherReturned := true }
| udpToDerpReturn (s : GwState) (h : s.udpClosed = true ∨ s.cancelled = true)
    (h2 : s.udpToDerpReturned = false) :
    GwStep s { s with udpToDerpReturned := true }
| derpToUdpReturn (s : GwState) (h : s.cancelled = true)
    (h2 : s.derpToUdpReturned = false) :
    GwStep s { s with derpToUdpReturned := true }

/-- Reachability of `gateway.Run` states under arbitrary interleaving. -/
def GwReachable (s : GwState) : Prop :=
  Relation.ReflTransGen GwStep gwInit s

/-- `gwInit` after the environment has cancelled the context. -/
def gwCancelled : GwState :=
  { gwInit with cancelled := true }

/-- `gwCancelled` after the main body of `Run` has woken from
`<-ctx.Done()` and returned (its deferred `derpClient.Close()` included),
while none of the three goroutines has run since cancellation. -/
def gwMainDone : GwState :=
  { gwCancelled with mainReturned := true, derpClosed := true }

end gateway

/-- Sample datagram endpoint `10.0.0.1:51820`. -/
def epA : relay.Endpoint :=
  { type := relay.EndpointType.udp, udpAddr := some "10.0.0.1:51820",
    streamRemote := "", lastSeen := 0 }

/-- Sample datagram endpoint `10.0.0.2:51821`. -/
def epB : relay.Endpoint :=
  { type := relay.EndpointType.udp, udpAddr := some "10.0.0.2:51821",
    streamRemote := "", lastSeen := 0 }

/-- Sample datagram endpoint `10.0.0.3:51822`. -/
def epC : relay.Endpoint :=
  { type := relay.EndpointType.udp, udpAddr := some "10.0.0.3:51822",
    streamRemote := "", lastSeen := 0 }

/-- A registry knowing only peer index `0x7531 ↦ epB`. -/
def regB : relay.Registry :=
  [(30001, epB)]

/-- A registry knowing peer indices `0x3039 ↦ epA` and `0x7531 ↦ epB`. -/
def regAB : relay.Registry :=
  [(12345, epA), (30001, epB)]

/-- A 148-byte handshake initiation with sender index `0x3039 = 12345`. -/
def pktInit : List Byte :=
  [1, 0, 0, 0, 57, 48, 0, 0] ++ List.replicate 140 0

/-- A 92-byte handshake response with sender index `0x7532 = 30002` and
receiver index `0x3039 = 12345`. -/
def pktResp : List Byte :=
  [2, 0, 0, 0, 50, 117, 0, 0, 57, 48, 0, 0] ++ List.replicate 80 0

/-- A 92-byte handshake response whose receiver index equals its own
sender index (`5`). -/
def pktRespSelf : List Byte :=
  [2, 0, 0, 0, 5, 0, 0, 0, 5, 0, 0, 0] ++ List.replicate 80 0

/-- A 16-byte transport packet with receiver index `0x3039 = 12345`. -/
def pktXport : List Byte :=
  [4, 0, 0, 0, 57, 48, 0, 0] ++ List.replicate 8 0

/-- The message `packet.Parse` yields on `pktResp`. -/
def mResp : packet.Message :=
  { type := 2, sender := some 30002, receiver := some 12345, data := pktResp }

/-! ### Helper lemmas -/

/-- `Parse` on a well-formed initiation frame. -/
theorem parse_initiation_eq (data : List Byte) (hlen : data.length = 148)
    (hty : packet.byteAt data 0 = 1) :
    packet.Parse data =
      Except.ok
        { type := 1, sender := some (packet.le32 data 4), receiver := none,
          data := data } := by
  simp [packet.Parse, packet.parseInitiation, hlen, hty,
    packet.MessageInitiationType, packet.MessageInitiationSize]

/-- `Parse` on a well-formed response frame. -/
theorem parse_response_eq (data : List Byte) (hlen : data.length = 92)
    (hty : packet.byteAt data 0 = 2) :
    packet.Parse data =
      Except.ok
        { type := 2, sender := some (packet.le32 data 4),
          receiver := some (packet.le32 data 8), data := data } := by
  simp [packet.Parse, packet.parseResponse, hlen, hty,
    packet.MessageInitiationType, packet.MessageResponseType,
    packet.MessageResponseSize]

/-- `Parse` on a well-formed transport frame. -/
theorem parse_transport_eq (data : List Byte) (hlen : 16 ≤ data.length)
    (hty : packet.byteAt data 0 = 4) :
    packet.Parse data =
      Except.ok
        { type := 4, sender := none, receiver := some (packet.le32 data 4),
          data := data } := by
  have h4 : ¬ data.length < 4 := by omega
  have h16 : ¬ data.length < 16 := by omega
  simp [packet.Parse, packet.parseTransport, h4, h16, hty,
    packet.MessageInitiationType, packet.MessageResponseType,
    packet.MessageCookieReplyType, packet.MessageTransportType,
    packet.MessageTransportHeaderSize, packet.MessageTransportOffsetReceiver]

/-- Looking an index up right after registering it yields the registered
endpoint. -/
theorem Lookup_Register_self (i : Nat) (e : relay.Endpoint) (r : relay.Registry) :
    relay.Lookup i (relay.Register i e r) = some e := by
  simp [relay.Lookup, relay.Register, List.find?]

/-- Membership in `GetAllExcept source r`: exactly the endpoints bound in
`r` that are not `endpointsEqual` to `source`. -/
theorem mem_GetAllExcept (src : relay.Endpoint) (r : relay.Registry)
    (e : relay.Endpoint) :
    e ∈ relay.GetAllExcept src r ↔
      ∃ i, (i, e) ∈ r ∧ relay.endpointsEqual e src = false := by
  simp only [relay.GetAllExcept, List.mem_map, List.mem_filter]
  constructor
  · rintro ⟨⟨i, e1⟩, ⟨hmem, hne⟩, rfl⟩
    exact ⟨i, hmem, by simpa using hne⟩
  · rintro ⟨i, hmem, hne⟩
    exact ⟨(i, e), ⟨hmem, by simpa using hne⟩, rfl⟩

/-- `Parse` on a well-formed cookie reply frame. -/
theorem parse_cookie_reply_eq (data : List Byte) (hlen : data.length = 64)
    (hty : packet.byteAt data 0 = 3) :
    packet.Parse data =
      Except.ok
        { type := 3, sender := none, receiver := some (packet.le32 data 4),
          data := data } := by
  simp [packet.Parse, packet.parseCookieReply, hlen, hty,
    packet.MessageInitiationType, packet.MessageResponseType,
    packet.MessageCookieReplyType, packet.MessageCookieReplySize]

/-- `Parse` succeeds exactly on the frames admitted by the size policy. -/
theorem Parse_isOk_iff (data : List Byte) :
    (packet.Parse data).isOk = true ↔
      (4 ≤ data.length ∧
        ((packet.byteAt data 0 = 1 ∧ data.length = 148) ∨
         (packet.byteAt data 0 = 2 ∧ data.length = 92) ∨
         (packet.byteAt data 0 = 3 ∧ data.length = 64) ∨
         (packet.byteAt data 0 = 4 ∧ 16 ≤ data.length))) := by
  constructor
  · intro h
    by_cases h4 : data.length < 4
    · simp [packet.Parse, Except.isOk, Except.toBool, h4] at h
    · refine ⟨by omega, ?_⟩
      by_cases h1 : packet.byteAt data 0 = 1
      · by_cases hl : data.length = 148
        · exact Or.inl ⟨h1, hl⟩
        · simp [packet.Parse, packet.parseInitiation, Except.isOk, Except.toBool, h4, h1,
            packet.MessageInitiationType, packet.MessageInitiationSize, hl] at h
      · by_cases h2 : packet.byteAt data 0 = 2
        · by_cases hl : data.length = 92
          · exact Or.inr (Or.inl ⟨h2, hl⟩)
          · simp [packet.Parse, packet.parseResponse, Except.isOk, Except.toBool, h4, h1, h2,
              packet.MessageInitiationType, packet.MessageResponseType,
              packet.MessageResponseSize, hl] at h
        · by_cases h3 : packet.byteAt data 0 = 3
          · by_cases hl : data.length = 64
            · exact Or.inr (Or.inr (Or.inl ⟨h3, hl⟩))
            · simp [packet.Parse, packet.parseCookieReply, Except.isOk, Except.toBool, h4, h1, h2, h3,
                packet.MessageInitiationType, packet.MessageResponseType,
                packet.MessageCookieReplyType, packet.MessageCookieReplySize,
                hl] at h
          · by_cases ht : packet.byteAt data 0 = 4
            · by_cases hl : data.length < 16
              · simp [packet.Parse, packet.parseTransport, Except.isOk, Except.toBool, h4, h1, h2, h3, ht,
                  packet.MessageInitiationType, packet.MessageResponseType,
                  packet.MessageCookieReplyType, packet.MessageTransportType,
                  packet.MessageTransportHeaderSize, hl] at h
              · exact Or.inr (Or.inr (Or.inr ⟨ht, by omega⟩))
            · simp [packet.Parse, Except.isOk, Except.toBool, h4, h1, h2, h3, ht,
                packet.MessageInitiationType, packet.MessageResponseType,
                packet.MessageCookieReplyType, packet.MessageTransportType] at h
  · rintro ⟨h4, hc⟩
    rcases hc with ⟨hty, hlen⟩ | ⟨hty, hlen⟩ | ⟨hty, hlen⟩ | ⟨hty, hlen⟩
    · rw [parse_initiation_eq data hlen hty]; rfl
    · rw [parse_response_eq data hlen hty]; rfl
    · rw [parse_cookie_reply_eq data hlen hty]; rfl
    · rw [parse_transport_eq data hlen hty]; rfl

/-- The fields of a successfully parsed message, by type byte. -/
theorem Parse_ok_fields (data : List Byte) (m : packet.Message)
    (h : packet.Parse data = Except.ok m) :
    m.data = data ∧ m.type = packet.byteAt data 0 ∧
    (packet.byteAt data 0 = 1 →
      m.sender = some (packet.le32 data 4) ∧ m.receiver = none) ∧
    (packet.byteAt data 0 = 2 →
      m.sender = some (packet.le32 data 4) ∧
        m.receiver = some (packet.le32 data 8)) ∧
    (packet.byteAt data 0 = 3 →
      m.sender = none ∧ m.receiver = some (packet.le32 data 4)) ∧
    (packet.byteAt data 0 = 4 →
      m.sender = none ∧ m.receiver = some (packet.le32 data 4)) := by
  have hOk : (packet.Parse data).isOk = true := by rw [h]; rfl
  rcases (Parse_isOk_iff data).mp hOk with ⟨-, hc⟩
  rcases hc with ⟨hty, hlen⟩ | ⟨hty, hlen⟩ | ⟨hty, hlen⟩ | ⟨hty, hlen⟩
  · rw [parse_initiation_eq data hlen hty] at h
    cases h
    simp [hty]
  · rw [parse_response_eq data hlen hty] at h
    cases h
    simp [hty]
  · rw [parse_cookie_reply_eq data hlen hty] at h
    cases h
    simp [hty]
  · rw [parse_transport_eq data hlen hty] at h
    cases h
    simp [hty]

/-- Normal form of `ProcessPacket` when parsing succeeds and the message
carries a receiver index: learn the sender, then route by the receiver. -/
theorem ProcessPacket_receiver_some (data : List Byte) (source : relay.Endpoint)
    (reg : relay.Registry) (m : packet.Message) (r : Nat)
    (hp : packet.Parse data = Except.ok m) (hr : m.receiver = some r) :
    relay.ProcessPacket data source reg =
      Except.ok
        ((match relay.Lookup r (relay.learnSender m source reg) with
          | some dest => [dest]
          | none => []),
         relay.learnSender m source reg) := by
  simp only [relay.ProcessPacket, hp, hr]
  cases hl : relay.Lookup r (relay.learnSender m source reg) <;> simp [hl]

/-- Normal form of `ProcessPacket` when parsing succeeds and the message
has no receiver index: learn the sender, then broadcast. -/
theorem ProcessPacket_receiver_none (data : List Byte) (source : relay.Endpoint)
    (reg : relay.Registry) (m : packet.Message)
    (hp : packet.Parse data = Except.ok m) (hr : m.receiver = none) :
    relay.ProcessPacket data source reg =
      Except.ok
        (relay.GetAllExcept source (relay.learnSender m source reg),
         relay.learnSender m source reg) := by
  simp [relay.ProcessPacket, hp, hr]

/-! ### Claim theorems -/

/-- C2: `parse(b)` succeeds exactly when `b` has at least 4 bytes, `b[0]`
is one of the four message types, and the size constraint of that type
holds (exactly 148/92/64 for types 1/2/3, at least 16 for type 4); on
success the sender and receiver fields are present exactly as fixed by the
type and hold the little-endian 32-bit values at bytes 4..7 and, for the
response's receiver, bytes 8..11; otherwise an error value is returned
(the embedding is a total function — no panic). -/
theorem parse_characterization (data : List Byte) :
    ((packet.Parse data).isOk = true ↔
      (4 ≤ data.length ∧
        ((packet.byteAt data 0 = 1 ∧ data.length = 148) ∨
         (packet.byteAt data 0 = 2 ∧ data.length = 92) ∨
         (packet.byteAt data 0 = 3 ∧ data.length = 64) ∨
         (packet.byteAt data 0 = 4 ∧ 16 ≤ data.length)))) ∧
    ∀ m, packet.Parse data = Except.ok m →
      m.data = data ∧ m.type = packet.byteAt data 0 ∧
      (packet.byteAt data 0 = 1 →
        m.sender = some (packet.le32 data 4) ∧ m.receiver = none) ∧
      (packet.byteAt data 0 = 2 →
        m.sender = some (packet.le32 data 4) ∧
          m.receiver = some (packet.le32 data 8)) ∧
      (packet.byteAt data 0 = 3 →
        m.sender = none ∧ m.receiver = some (packet.le32 data 4)) ∧
      (packet.byteAt data 0 = 4 →
        m.sender = none ∧ m.receiver = some (packet.le32 data 4)) :=
  ⟨Parse_isOk_iff data, fun m h => Parse_ok_fields data m h⟩

/-- C2 witness: on the concrete 92-byte response frame `pktResp`, parsing
succeeds and extracts sender `0x7532` and receiver `0x3039`. -/
theorem parse_characterization_witness :
    (packet.Parse pktResp).isOk = true ∧
      ∀ m, packet.Parse pktResp = Except.ok m →
        m.sender = some 30002 ∧ m.receiver = some 12345 := by
  have h := parse_characterization pktResp
  refine ⟨h.1.mpr ⟨by decide, Or.inr (Or.inl ⟨by decide, by decide⟩)⟩, fun m hm => ?_⟩
  obtain ⟨-, -, -, h2, -, -⟩ := h.2 m hm
  obtain ⟨hs, hr⟩ := h2 (by decide)
  refine ⟨?_, ?_⟩
  · rw [hs]; decide
  · rw [hr]; decide

/-- C1: for every Initiation frame received from `source`, `ProcessPacket`
registers the sender's index to `source` and returns the endpoints
computed by `GetAllExcept` over the post-registration registry: exactly
those registered endpoints not comparing `endpointsEqual` to `source` —
exclusion is by endpoint equality alone, never by index. -/
theorem initiation_broadcast_excludes_source_only
    (data : List Byte) (source : relay.Endpoint) (reg : relay.Registry)
    (hlen : data.length = 148) (hty : packet.byteAt data 0 = 1) :
    relay.ProcessPacket data source reg =
      Except.ok
        (relay.GetAllExcept source (relay.Register (packet.le32 data 4) source reg),
          relay.Register (packet.le32 data 4) source reg) ∧
    ∀ e, e ∈ relay.GetAllExcept source
        (relay.Register (packet.le32 data 4) source reg) ↔
      ∃ i, (i, e) ∈ relay.Register (packet.le32 data 4) source reg ∧
        relay.endpointsEqual e source = false := by
  refine ⟨?_, fun e => mem_GetAllExcept source _ e⟩
  have h := ProcessPacket_receiver_none data source reg _
    (parse_initiation_eq data hlen hty) rfl
  simpa [relay.learnSender] using h

/-- C1 witness: the initiation `pktInit` (sender `0x3039`) from `epA`
against a registry holding only `epB`. -/
theorem initiation_broadcast_witness :
    relay.ProcessPacket pktInit epA regB =
      Except.ok
        (relay.GetAllExcept epA (relay.Register (packet.le32 pktInit 4) epA regB),
          relay.Register (packet.le32 pktInit 4) epA regB) ∧
    ∀ e, e ∈ relay.GetAllExcept epA
        (relay.Register (packet.le32 pktInit 4) epA regB) ↔
      ∃ i, (i, e) ∈ relay.Register (packet.le32 pktInit 4) epA regB ∧
        relay.endpointsEqual e epA = false :=
  initiation_broadcast_excludes_source_only pktInit epA regB (by decide) (by decide)

/-- C3: for a parsed packet with a receiver index `r` (Response or
Transport), `ProcessPacket` returns, without error, `[dest]` when the
post-learning registry maps `r` to `dest`, and `[]` when `r` is unknown at
the moment of the lookup. -/
theorem targeted_forwarding (data : List Byte) (source : relay.Endpoint)
    (reg : relay.Registry) (m : packet.Message) (r : Nat)
    (hp : packet.Parse data = Except.ok m)
    (hty : m.type = 2 ∨ m.type = 4)
    (hr : m.receiver = some r) :
    (∀ dest, relay.Lookup r (relay.learnSender m source reg) = some dest →
      relay.ProcessPacket data source reg =
        Except.ok ([dest], relay.learnSender m source reg)) ∧
    (relay.Lookup r (relay.learnSender m source reg) = none →
      relay.ProcessPacket data source reg =
        Except.ok ([], relay.learnSender m source reg)) := by
  have hnf := ProcessPacket_receiver_some data source reg m r hp hr
  constructor
  · intro dest hd
    rw [hd] at hnf
    simpa using hnf
  · intro hd
    rw [hd] at hnf
    simpa using hnf

/-- C3 witness: the response `pktResp` (receiver `0x3039`, known as `epA`)
from `epC` against registry `regAB`. -/
theorem targeted_forwarding_witness :
    (∀ dest, relay.Lookup 12345 (relay.learnSender mResp epC regAB) = some dest →
      relay.ProcessPacket pktResp epC regAB =
        Except.ok ([dest], relay.learnSender mResp epC regAB)) ∧
    (relay.Lookup 12345 (relay.learnSender mResp epC regAB) = none →
      relay.ProcessPacket pktResp epC regAB =
        Except.ok ([], relay.learnSender mResp epC regAB)) :=
  targeted_forwarding pktResp epC regAB mResp 12345 (by rfl)
    (Or.inl (by decide)) (by decide)

/-- C4: for any packet that parses with sender index `s`, received from
`source`, `ProcessPacket` succeeds, and the registry it returns maps `s`
to `source` — an unconditional upsert, whatever binding `s` had before. -/
theorem processor_learning_upsert (data : List Byte) (source : relay.Endpoint)
    (reg : relay.Registry) (m : packet.Message) (s : Nat)
    (hp : packet.Parse data = Except.ok m)
    (hs : m.sender = some s) :
    (relay.ProcessPacket data source reg).isOk = true ∧
    ∀ dests reg1, relay.ProcessPacket data source reg = Except.ok (dests, reg1) →
      relay.Lookup s reg1 = some source := by
  have hls : relay.learnSender m source reg = relay.Register s source reg := by
    simp [relay.learnSender, hs]
  cases hm : m.receiver with
  | none =>
    have hnf := ProcessPacket_receiver_none data source reg m hp hm
    refine ⟨by rw [hnf]; rfl, ?_⟩
    intro dests reg1 h
    rw [hnf] at h
    obtain ⟨-, h2⟩ := by simpa using h
    rw [← h2, hls]
    exact Lookup_Register_self s source reg
  | some rcv =>
    have hnf := ProcessPacket_receiver_some data source reg m rcv hp hm
    refine ⟨by rw [hnf]; rfl, ?_⟩
    intro dests reg1 h
    rw [hnf] at h
    obtain ⟨-, h2⟩ := by simpa using h
    rw [← h2, hls]
    exact Lookup_Register_self s source reg

/-- C4 witness: after processing the response `pktResp` (sender `0x7532`)
from `epC`, the returned registry maps `0x7532` to `epC`. -/
theorem processor_learning_witness :
    (relay.ProcessPacket pktResp epC regAB).isOk = true ∧
    ∀ dests reg1, relay.ProcessPacket pktResp epC regAB = Except.ok (dests, reg1) →
      relay.Lookup 30002 reg1 = some epC :=
  processor_learning_upsert pktResp epC regAB mResp 30002 (by rfl) (by decide)

/-- C7: a Transport packet has no sender index, so `ProcessPacket` returns
the registry unchanged — no entry is added, removed or replaced. -/
theorem transport_preserves_registry (data : List Byte) (source : relay.Endpoint)
    (reg : relay.Registry) (hty : packet.byteAt data 0 = 4)
    (hlen : 16 ≤ data.length) :
    (relay.ProcessPacket data source reg).isOk = true ∧
    ∀ dests reg1, relay.ProcessPacket data source reg = Except.ok (dests, reg1) →
      reg1 = reg := by
  have hp := parse_transport_eq data hlen hty
  have hnf := ProcessPacket_receiver_some data source reg _ (packet.le32 data 4) hp rfl
  refine ⟨by rw [hnf]; rfl, ?_⟩
  intro dests reg1 h
  rw [hnf] at h
  obtain ⟨-, h2⟩ := by simpa using h
  simpa [relay.learnSender] using h2.symm

/-- C7 witness: the 16-byte transport `pktXport` from `epA` leaves `regAB`
untouched. -/
theorem transport_preserves_witness :
    (relay.ProcessPacket pktXport epA regAB).isOk = true ∧
    ∀ dests reg1, relay.ProcessPacket pktXport epA regAB = Except.ok (dests, reg1) →
      reg1 = regAB :=
  transport_preserves_registry pktXport epA regAB (by decide) (by decide)

/-- C9: a Response whose receiver index equals its own sender index is
forwarded back to its source: the sender is registered first and the
receiver lookup then finds that very entry, so even from an empty registry
`ProcessPacket` returns `[E]`. -/
theorem response_self_receiver_echoes_source (data : List Byte)
    (E : relay.Endpoint) (reg : relay.Registry)
    (hlen : data.length = 92) (hty : packet.byteAt data 0 = 2)
    (hself : packet.le32 data 8 = packet.le32 data 4) :
    relay.ProcessPacket data E reg =
      Except.ok ([E], relay.Register (packet.le32 data 4) E reg) := by
  have hp := parse_response_eq data hlen hty
  have hnf := ProcessPacket_receiver_some data E reg _ (packet.le32 data 8) hp rfl
  rw [hnf]
  simp [relay.learnSender, hself, Lookup_Register_self]

/-- C9 witness: the self-addressed response `pktRespSelf` from `epA`
against the empty registry comes straight back as `[epA]`. -/
theorem response_self_witness :
    relay.ProcessPacket pktRespSelf epA [] =
      Except.ok ([epA], relay.Register (packet.le32 pktRespSelf 4) epA []) :=
  response_self_receiver_echoes_source pktRespSelf epA [] (by decide) (by decide)
    (by decide)

/-- C6 counterexample: a UDP read error while cancellation is active makes
the listener loop return `ctx.Err()` (`context.Canceled`) — not the nil
error the claim states. -/
theorem udp_read_error_cancelled_not_nil :
    (server.runLoopBody true (List.replicate 2048 0)
        (server.ReadResult.err "use of closed network connection")).2 ≠
      server.ListenerOutcome.exitErr none := by
  decide

/-- C6 amended: on a UDP read error the listener loop always exits with a
non-nil error — `ctx.Err()` (`context.Canceled`) when cancellation is
active, the wrapped read error otherwise. -/
theorem udp_read_error_result (ctxDone : Bool) (buf : List Byte) (e : String) :
    (server.runLoopBody ctxDone buf (server.ReadResult.err e)).2 =
      server.ListenerOutcome.exitErr
        (some (if ctxDone then server.ctxErrCanceled
          else "failed to read UDP packet: " ++ e)) := by
  cases ctxDone <;> rfl

/-- C10: with the loop's 2048-byte reused buffer, the packet copied out of
a read and dispatched to `handlePacket` is exactly the first
`min(|datagram|, 2048)` bytes of the arriving datagram, the buffer stays
2048 bytes long for the next iteration, and any datagram longer than 2048
bytes is truncated before parsing. -/
theorem listener_truncates_to_buffer (ctxDone : Bool) (buf datagram : List Byte)
    (addr : String) (hbuf : buf.length = 2048) :
    (server.runLoopBody ctxDone buf (server.ReadResult.ok datagram addr)).2 =
      server.ListenerOutcome.dispatch (datagram.take 2048) addr ∧
    (server.runLoopBody ctxDone buf (server.ReadResult.ok datagram addr)).1.length
      = 2048 ∧
    (2048 < datagram.length → datagram.take 2048 ≠ datagram) := by
  refine ⟨?_, ?_, ?_⟩
  · simp only [server.runLoopBody, server.readIntoBuffer, hbuf]
    have hl : (datagram.take (min datagram.length 2048)).length
        = min datagram.length 2048 := by
      rw [List.length_take]
      omega
    rw [List.take_left' hl]
    have : datagram.take (min datagram.length 2048) = datagram.take 2048 := by
      rw [List.take_eq_take]
      omega
    rw [this]
  · simp only [server.runLoopBody, server.readIntoBuffer, hbuf]
    simp [List.length_take, List.length_drop]
    omega
  · intro hlong heq
    have := congrArg List.length heq
    simp [List.length_take] at this
    omega

/-- C10 witness: a 2049-byte datagram is cut to its first 2048 bytes. -/
theorem listener_truncates_witness :
    (server.runLoopBody false (List.replicate 2048 0)
        (server.ReadResult.ok (List.replicate 2049 1) "10.0.0.9:9999")).2 =
      server.ListenerOutcome.dispatch
        ((List.replicate 2049 (1 : Byte)).take 2048) "10.0.0.9:9999" ∧
    (server.runLoopBody false (List.replicate 2048 0)
        (server.ReadResult.ok (List.replicate 2049 1) "10.0.0.9:9999")).1.length
      = 2048 ∧
    (2048 < (List.replicate 2049 (1 : Byte)).length →
      (List.replicate 2049 (1 : Byte)).take 2048 ≠ List.replicate 2049 (1 : Byte)) :=
  listener_truncates_to_buffer false (List.replicate 2048 0)
    (List.replicate 2049 1) "10.0.0.9:9999" (by simp)

/-- The trace cancel → main-return is an execution of `gateway.Run`. -/
theorem gwReach_mainDone : gateway.GwReachable gateway.gwMainDone := by
  have h1 : gateway.GwStep gateway.gwInit gateway.gwCancelled :=
    gateway.GwStep.cancel gateway.gwInit rfl
  have h2 : gateway.GwStep gateway.gwCancelled gateway.gwMainDone :=
    gateway.GwStep.mainReturn gateway.gwCancelled rfl rfl
  exact Relation.ReflTransGen.head h1 (Relation.ReflTransGen.single h2)

/-- C5 counterexample: `gateway.Run` spawns its goroutines without any
join, so the interleaving cancel → main-return reaches a state where `Run`
has returned while none of the three tasks has. -/
theorem gateway_run_returns_before_tasks :
    gateway.GwReachable gateway.gwMainDone ∧
    gateway.gwMainDone.mainReturned = true ∧
    gateway.gwMainDone.watcherReturned = false ∧
    gateway.gwMainDone.udpToDerpReturned = false ∧
    gateway.gwMainDone.derpToUdpReturned = false :=
  ⟨gwReach_mainDone, rfl, rfl, rfl, rfl⟩

/-- C5 amended: `gateway.Run` does block on cancellation — in every
reachable state in which the main body has returned, cancellation has
fired — but it does not wait for its three tasks, which may still be
running when it returns. -/
theorem gateway_run_blocks_on_cancellation (s : gateway.GwState)
    (h : gateway.GwReachable s) (hm : s.mainReturned = true) :
    s.cancelled = true := by
  suffices hinv : s.mainReturned = true → s.cancelled = true from hinv hm
  clear hm
  induction h with
  | refl => intro hm; simp [gateway.gwInit] at hm
  | tail _hab hbc ih =>
    intro hm
    cases hbc with
    | cancel ht => rfl
    | mainReturn ht h2 => exact ht
    | watcherRun ht h2 => exact ht
    | udpToDerpReturn ht h2 => exact ih hm
    | derpToUdpReturn ht h2 => exact ih hm

/-- C5 amended witness: in the concrete reachable state `gwMainDone` the
main body has returned, and indeed cancellation has fired there. -/
theorem gateway_run_blocks_witness : gateway.gwMainDone.cancelled = true :=
  gateway_run_blocks_on_cancellation gateway.gwMainDone gwReach_mainDone rfl

/-- C8: the DERP→UDP goroutine writes the payload of every
`ReceivedPacket` to the configured WireGuard endpoint, for every source
public key alike — the source key is never consulted. -/
theorem gateway_forwards_any_source_key (wgAddr : String) (data : List Byte) :
    ∀ src, gateway.handleDerpMessage wgAddr
        (gateway.DerpMessage.receivedPacket src data) =
      gateway.GatewayAction.writeTo data wgAddr :=
  fun _ => rfl

end Spanza
